import Mathlib

/-!
Shallow embedding of the authentication core of the contactsAPI repository:
the token codec (`src/services/auth.py`), the credential check, the user
repository (`src/repository/users.py`), and the auth route handlers
(`src/routes/auth.py`).  Time is an explicit `Nat` parameter (seconds);
`datetime.utcnow()` becomes the `now` argument threaded through each call.
JWT strings are modelled as their decoded content paired with the signing
key: two JWT strings are equal iff their payloads and keys are equal, so
structural equality of `Token` models string equality of encoded tokens.
Python exceptions that escape a handler are modelled by the
`Outcome.pythonError` constructor; `fastapi.HTTPException` by
`Outcome.httpError` with its status code and detail string.
-/

namespace ContactsAPI

/-- The `scope` claim value written by the token factories: `"access_token"`
from `create_access_token`, `"refresh_token"` from `create_refresh_token`. -/
inductive Scope where
  | access_token
  | refresh_token
deriving DecidableEq

/-- The claim set `{sub, iat, exp, scope?}` carried by every token the
service issues.  `create_email_token` writes no scope, hence `Option`. -/
structure Payload where
  sub : String
  iat : Nat
  exp : Nat
  scope : Option Scope
deriving DecidableEq

/-- A signed JWT: the payload together with the key it was signed with
(`jwt.encode(to_encode, SECRET_KEY, algorithm)`). -/
structure Token where
  payload : Payload
  key : String
deriving DecidableEq

/-- `settings.secret_key`: an arbitrary fixed configuration value. -/
def SECRET_KEY : String := "secret_key"

/-- The two `jose.JWTError` conditions relevant here: a signature that does
not verify, and `ExpiredSignatureError` (a `JWTError` subclass) for a stale
`exp` claim.  `jose.jwt.decode` checks the signature first, then `exp`. -/
inductive JWTError where
  | invalid_signature
  | expired_signature
deriving DecidableEq

/-- `jose.jwt.decode(token, key, algorithms)`: verifies the signature, then
rejects when the `exp` claim is in the past (`exp < now`), else returns the
claim set. -/
def jwtDecode (token : Token) (key : String) (now : Nat) : Except JWTError Payload :=
  if token.key = key then
    if token.payload.exp < now then .error .expired_signature
    else .ok token.payload
  else .error .invalid_signature

/-- Result of a service call or route handler as seen by the caller. -/
inductive Outcome (α : Type) where
  | ok : α → Outcome α
  | httpError : Nat → String → Outcome α
  | pythonError : String → Outcome α
deriving DecidableEq

/-- `Auth.create_access_token`: copies the data, sets
`exp = now + expires_delta` when a truthy delta is given (Python treats `0`
as falsy) and `now + 15` minutes otherwise, and tags `scope:
"access_token"`. -/
def create_access_token (now : Nat) (sub : String) (expires_delta : Option Nat) : Token :=
  let expire :=
    match expires_delta with
    | some d => if d = 0 then now + 15 * 60 else now + d
    | none => now + 15 * 60
  ⟨⟨sub, now, expire, some Scope.access_token⟩, SECRET_KEY⟩

/-- `Auth.create_refresh_token`: like the access factory with a 7-day
default lifetime and `scope: "refresh_token"`. -/
def create_refresh_token (now : Nat) (sub : String) (expires_delta : Option Nat) : Token :=
  let expire :=
    match expires_delta with
    | some d => if d = 0 then now + 7 * 24 * 60 * 60 else now + d
    | none => now + 7 * 24 * 60 * 60
  ⟨⟨sub, now, expire, some Scope.refresh_token⟩, SECRET_KEY⟩

/-- `Auth.create_email_token`: 7-day lifetime and no scope claim at all. -/
def create_email_token (now : Nat) (sub : String) : Token :=
  ⟨⟨sub, now, now + 7 * 24 * 60 * 60, none⟩, SECRET_KEY⟩

/-- `Auth.decode_refresh_token`: decode inside `try`; any `JWTError` becomes
HTTP 401 "Could not validate credentials"; a decoded payload whose scope is
`"refresh_token"` yields its subject; any other scope value raises HTTP 401
"Invalid scope for token" (raised inside the `try`, but `HTTPException` is
not a `JWTError`, so it escapes).  `payload['scope']` on a payload with no
scope key raises `KeyError`, which nothing catches. -/
def decode_refresh_token (now : Nat) (refresh_token : Token) : Outcome String :=
  match jwtDecode refresh_token SECRET_KEY now with
  | .error _ => .httpError 401 "Could not validate credentials"
  | .ok payload =>
    match payload.scope with
    | none => .pythonError "KeyError"
    | some s =>
      if s = Scope.refresh_token then .ok payload.sub
      else .httpError 401 "Invalid scope for token"

/-- `Auth.get_email_from_token`: decode inside `try`, return
`payload["sub"]`; any `JWTError` becomes HTTP 422 "Invalid token for email
verification".  No scope check of any kind is performed. -/
def get_email_from_token (now : Nat) (token : Token) : Outcome String :=
  match jwtDecode token SECRET_KEY now with
  | .ok payload => .ok payload.sub
  | .error _ => .httpError 422 "Invalid token for email verification"

/-- Model of passlib's `CryptContext(schemes=["bcrypt"]).verify`, the
external backend behind `Auth.verify_password`.  Per passlib's documented
contract it raises `UnknownHashError` when the digest cannot be identified
as a hash of a configured scheme (bcrypt digests carry the `$2b$` marker),
and otherwise reports whether the plaintext produced the digest.  The
one-way transform is abstracted to an injective tagging of the plaintext,
which preserves exactly the verify/reject behaviour the routes observe. -/
def pwd_context_verify (plain_password hashed_password : String) : Except String Bool :=
  if "$2b$".data.isPrefixOf hashed_password.data then
    .ok (hashed_password = "$2b$" ++ plain_password)
  else .error "UnknownHashError"

/-- `Auth.verify_password`: a bare delegation
`return self.pwd_context.verify(plain_password, hashed_password)` with no
exception handling of its own. -/
def verify_password (plain_password hashed_password : String) : Except String Bool :=
  pwd_context_verify plain_password hashed_password

/-- A row of the `users` table as the auth routes read it. -/
structure User where
  id : Nat
  username : String
  email : String
  password : String
  confirmed : Bool
  refresh_token : Option Token
deriving DecidableEq

/-- `repository.users.get_user_by_email`:
`db.query(User).filter(User.email == email).first()` — the first row whose
email matches, or `None`. -/
def get_user_by_email (email : String) (db : List User) : Option User :=
  db.find? (fun u => u.email = email)

/-- `repository.users.update_token`: sets `user.refresh_token = token` on
the ORM object and commits; the row identified by the object's primary key
is updated in place. -/
def update_token (user : User) (token : Option Token) (db : List User) : List User :=
  db.map (fun u => if u.id = user.id then { u with refresh_token := token } else u)

/-- The redis key-value store behind the identity cache: each key holds a
pickled user snapshot together with the absolute time, if any, at which
the key expires.  A key written by a bare `SET` carries no expiry
(`none`) and stays live until overwritten; `EXPIRE` would attach one. -/
def Cache := String → Option (User × Option Nat)

/-- A cache with no live keys. -/
def emptyCache : Cache := fun _ => none

/-- `r.get(key)`: the stored snapshot if the key is live at `now` — a key
without an expiry is always live, a key with one only until it elapses —
and `None` if the key was never written or has expired. -/
def rGet (r : Cache) (now : Nat) (key : String) : Option User :=
  match r key with
  | none => none
  | some (v, none) => some v
  | some (v, some t) => if now < t then some v else none

/-- `r.set(key, pickle.dumps(user))`: overwrites the key with the
snapshot; `expiresAt` is the expiry a separate `EXPIRE` call would have
attached — `get_current_user` never reaches its `r.expire` call, so every
write it performs passes `none`. -/
def rSet (r : Cache) (key : String) (v : User) (expiresAt : Option Nat) : Cache :=
  fun k => if k = key then some (v, expiresAt) else r k

/-- What one `Auth.get_current_user` call produced: the value or error
handed to the caller, how many times it queried the users table, how many
times it wrote the cache, and the cache state it left behind. -/
structure GcuResult where
  outcome : Outcome User
  dbLookups : Nat
  cacheWrites : Nat
  cache : Cache

/-- `Auth.get_current_user`: decode the bearer token (any `JWTError` maps
to 401 "Could not validate credentials"); require `payload['scope'] ==
'access_token'` (`KeyError` escapes on a scope-less payload, any other
scope raises the same 401); then consult the cache under key
`"user:" + email` — on a hit, unpickle and return the cached snapshot
without touching the database; on a miss, look the user up in the
database (401 if absent) and write the snapshot to the cache.  `self.r`
is the synchronous `redis.Redis` client (line 29), yet the write is
`await self.r.set(...)` with no exception handler around it: when the
client itself raises (modelled by `cacheSetFails`), the error escapes and
nothing is written; when the raw `SET` succeeds, awaiting its boolean
result raises `TypeError`, which nothing catches either — so on a
cache-miss-with-user-found path the resolved identity is never returned,
and the subsequent `await self.r.expire(key, 900)` is never reached,
leaving the written key with no TTL. -/
def get_current_user (now : Nat) (token : Token) (db : List User) (cache : Cache)
    (cacheSetFails : Bool) : GcuResult :=
  match jwtDecode token SECRET_KEY now with
  | .error _ => ⟨.httpError 401 "Could not validate credentials", 0, 0, cache⟩
  | .ok payload =>
    match payload.scope with
    | none => ⟨.pythonError "KeyError", 0, 0, cache⟩
    | some s =>
      if s = Scope.access_token then
        let email := payload.sub
        match rGet cache now ("user:" ++ email) with
        | none =>
          match get_user_by_email email db with
          | none => ⟨.httpError 401 "Could not validate credentials", 1, 0, cache⟩
          | some user =>
            if cacheSetFails then ⟨.pythonError "RedisError", 1, 0, cache⟩
            else ⟨.pythonError "TypeError", 1, 1,
              rSet cache ("user:" ++ email) user none⟩
        | some cached => ⟨.ok cached, 0, 0, cache⟩
      else ⟨.httpError 401 "Could not validate credentials", 0, 0, cache⟩

/-- What a `login` call produced: the token pair or error, the database
state after it, and how many times `auth_service.verify_password` ran. -/
structure LoginResult where
  outcome : Outcome (Token × Token)
  db : List User
  verifyCalls : Nat

/-- Route `POST /auth/login`: look the user up by the submitted username
(an email); 401 "Invalid email" if absent; 401 "Email not confirmed" if
`not user.confirmed`, before any password check; 401 "Invalid password"
when `verify_password` rejects (an exception from the hash backend
escapes); otherwise issue an access and a refresh token for the user's
email, persist the refresh token on the user, and return both. -/
def login (now : Nat) (username password : String) (db : List User) : LoginResult :=
  match get_user_by_email username db with
  | none => ⟨.httpError 401 "Invalid email", db, 0⟩
  | some user =>
    if user.confirmed = false then ⟨.httpError 401 "Email not confirmed", db, 0⟩
    else
      match verify_password password user.password with
      | .error e => ⟨.pythonError e, db, 1⟩
      | .ok false => ⟨.httpError 401 "Invalid password", db, 1⟩
      | .ok true =>
        let access := create_access_token now user.email none
        let refresh := create_refresh_token now user.email none
        ⟨.ok (access, refresh), update_token user (some refresh) db, 1⟩

/-- What a refresh call produced: the token pair or error and the database
state after it. -/
structure RefreshResult where
  outcome : Outcome (Token × Token)
  db : List User

/-- Route `GET /auth/refresh_token`: decode the presented credential with
`decode_refresh_token` (errors propagate); fetch the user by the decoded
email — when no user matches, `user.refresh_token` dereferences `None` and
`AttributeError` escapes; when the stored refresh token differs from the
presented one, clear the stored value and raise 401 "Invalid refresh
token"; otherwise issue a fresh pair and store the new refresh token. -/
def refresh_token_route (now : Nat) (credentials : Token) (db : List User) : RefreshResult :=
  match decode_refresh_token now credentials with
  | .httpError c d => ⟨.httpError c d, db⟩
  | .pythonError e => ⟨.pythonError e, db⟩
  | .ok email =>
    match get_user_by_email email db with
    | none => ⟨.pythonError "AttributeError", db⟩
    | some user =>
      if user.refresh_token = some credentials then
        let access := create_access_token now email none
        let refresh := create_refresh_token now email none
        ⟨.ok (access, refresh), update_token user (some refresh) db⟩
      else
        ⟨.httpError 401 "Invalid refresh token", update_token user none db⟩

/-- What a `request_email` call produced: the response or error, and
whether a confirmation email was scheduled. -/
structure RequestEmailResult where
  outcome : Outcome String
  emailSent : Bool
deriving DecidableEq

/-- Route `POST /auth/request_email`: fetch the user by the submitted
email, then read `user.confirmed` — when no user matches, this dereferences
`None` and `AttributeError` escapes before the later `if user:` existence
check is reached; an already-confirmed user gets the no-op message;
otherwise (the `if user:` test, always true here) a confirmation email is
scheduled. -/
def request_email (email : String) (db : List User) : RequestEmailResult :=
  match get_user_by_email email db with
  | none => ⟨.pythonError "AttributeError", false⟩
  | some user =>
    if user.confirmed then ⟨.ok "Your email is already confirmed", false⟩
    else ⟨.ok "Check your email for confirmation.", true⟩

/-! ## Theorems -/

/-- C1: when the presented credential decodes with refresh scope but the
identity's stored refresh-token value differs from it, the refresh route
answers 401 "Invalid refresh token" (the `RevokedToken` failure), clears
the stored refresh-token value of that identity, and issues no new token
pair. -/
theorem refresh_mismatch_revokes (now : Nat) (tok : Token) (db : List User)
    (email : String) (user : User)
    (hdec : decode_refresh_token now tok = .ok email)
    (hfind : get_user_by_email email db = some user)
    (hne : user.refresh_token ≠ some tok) :
    (refresh_token_route now tok db).outcome = .httpError 401 "Invalid refresh token" ∧
    (∀ u ∈ (refresh_token_route now tok db).db, u.id = user.id → u.refresh_token = none) ∧
    (∀ p : Token × Token, (refresh_token_route now tok db).outcome ≠ .ok p) := by
  simp only [refresh_token_route, hdec, hfind, if_neg hne]
  refine ⟨by trivial, ?_, by simp⟩
  intro u hu hid
  simp only [update_token, List.mem_map] at hu
  obtain ⟨v, hv, rfl⟩ := hu
  by_cases h : v.id = user.id
  · simp [if_pos h]
  · rw [if_neg h] at hid ⊢
    exact absurd hid h

/-- C1 witness: a concrete mismatching refresh (stored value `None`). -/
theorem refresh_mismatch_revokes_witness :
    (refresh_token_route 0 (create_refresh_token 0 "a@x.com" (some 100))
      [⟨1, "alice", "a@x.com", "$2b$pw", true, none⟩]).outcome =
      Outcome.httpError 401 "Invalid refresh token" :=
  (refresh_mismatch_revokes 0 (create_refresh_token 0 "a@x.com" (some 100))
    [⟨1, "alice", "a@x.com", "$2b$pw", true, none⟩] "a@x.com"
    ⟨1, "alice", "a@x.com", "$2b$pw", true, none⟩
    (by decide) (by decide) (by decide)).1

/-- C2: login on an account whose `confirmed` flag is false fails with 401
"Email not confirmed" whatever the supplied password is, and the password
verifier is never invoked. -/
theorem login_unconfirmed (now : Nat) (username password : String)
    (db : List User) (user : User)
    (hfind : get_user_by_email username db = some user)
    (hconf : user.confirmed = false) :
    (login now username password db).outcome = .httpError 401 "Email not confirmed" ∧
    (login now username password db).verifyCalls = 0 := by
  simp [login, hfind, hconf]

/-- C2 witness: an unconfirmed account with the correct password still gets
"Email not confirmed" and zero verifier calls. -/
theorem login_unconfirmed_witness :
    (login 0 "a@x.com" "secret1"
      [⟨1, "alice", "a@x.com", "$2b$secret1", false, none⟩]).outcome =
        Outcome.httpError 401 "Email not confirmed" ∧
    (login 0 "a@x.com" "secret1"
      [⟨1, "alice", "a@x.com", "$2b$secret1", false, none⟩]).verifyCalls = 0 :=
  login_unconfirmed 0 "a@x.com" "secret1"
    [⟨1, "alice", "a@x.com", "$2b$secret1", false, none⟩]
    ⟨1, "alice", "a@x.com", "$2b$secret1", false, none⟩
    (by decide) (by decide)

/-- C9: a validly signed, unexpired refresh-scoped token whose subject has
no user row makes the refresh route dereference `None`
(`user.refresh_token` with `user = None` raises `AttributeError`) instead
of returning a typed failure. -/
theorem refresh_unknown_email_dereferences_none (now : Nat) (tok : Token)
    (db : List User) (email : String)
    (hdec : decode_refresh_token now tok = .ok email)
    (hfind : get_user_by_email email db = none) :
    (refresh_token_route now tok db).outcome = .pythonError "AttributeError" := by
  simp [refresh_token_route, hdec, hfind]

/-- C9 witness: a fresh refresh token presented against an empty users
table crashes with `AttributeError`. -/
theorem refresh_unknown_email_dereferences_none_witness :
    (refresh_token_route 0 (create_refresh_token 0 "ghost@x.com" (some 100)) []).outcome =
      Outcome.pythonError "AttributeError" :=
  refresh_unknown_email_dereferences_none 0
    (create_refresh_token 0 "ghost@x.com" (some 100)) [] "ghost@x.com"
    (by decide) (by decide)

/-- C10: `request_email` with an email that has no registered user reads
`user.confirmed` on `None` before the `if user:` existence check, so the
call raises `AttributeError` rather than returning any outcome, and no
email is scheduled. -/
theorem request_email_unknown_dereferences_none (email : String) (db : List User)
    (hfind : get_user_by_email email db = none) :
    request_email email db = ⟨.pythonError "AttributeError", false⟩ := by
  simp [request_email, hfind]

/-- C10 witness: an unknown address against an empty users table. -/
theorem request_email_unknown_dereferences_none_witness :
    request_email "ghost@x.com" [] =
      (⟨Outcome.pythonError "AttributeError", false⟩ : RequestEmailResult) :=
  request_email_unknown_dereferences_none "ghost@x.com" [] (by decide)

/-- C3 counterexample: a tampered refresh token (wrong signing key) and an
expired one produce the very same failure value from the decode path, so
"tampered" and "stale" are not distinguishable by the caller, contrary to
the claim of three mutually distinguishable failure kinds. -/
theorem decode_failure_kinds_counterexample :
    decode_refresh_token 10 ⟨⟨"a@x.com", 0, 100, some Scope.refresh_token⟩, "tampered"⟩ =
      decode_refresh_token 10 ⟨⟨"a@x.com", 0, 5, some Scope.refresh_token⟩, SECRET_KEY⟩ ∧
    decode_refresh_token 10 ⟨⟨"a@x.com", 0, 100, some Scope.refresh_token⟩, "tampered"⟩ =
      Outcome.httpError 401 "Could not validate credentials" := by
  decide

/-- C3 amended: the decode path exposes exactly two distinguishable failure
kinds, not three — a badly signed token and an expired token both map to
401 "Could not validate credentials", while a validly signed unexpired
token of the wrong scope maps to the distinct 401 "Invalid scope for
token". -/
theorem decode_two_failure_kinds (now : Nat) (t1 t2 t3 : Token)
    (h1 : t1.key ≠ SECRET_KEY)
    (h2k : t2.key = SECRET_KEY) (h2e : t2.payload.exp < now)
    (h3k : t3.key = SECRET_KEY) (h3e : ¬ t3.payload.exp < now)
    (h3s : t3.payload.scope = some Scope.access_token) :
    decode_refresh_token now t1 = .httpError 401 "Could not validate credentials" ∧
    decode_refresh_token now t2 = .httpError 401 "Could not validate credentials" ∧
    decode_refresh_token now t3 = .httpError 401 "Invalid scope for token" := by
  simp [decode_refresh_token, jwtDecode, h1, h2k, h2e, h3k, h3e, h3s]

/-- C3 witness: concrete tampered, expired and wrong-scope tokens at time
10. -/
theorem decode_two_failure_kinds_witness :
    decode_refresh_token 10 ⟨⟨"a@x.com", 0, 100, some Scope.refresh_token⟩, "tampered"⟩ =
      Outcome.httpError 401 "Could not validate credentials" ∧
    decode_refresh_token 10 ⟨⟨"a@x.com", 0, 5, some Scope.refresh_token⟩, SECRET_KEY⟩ =
      Outcome.httpError 401 "Could not validate credentials" ∧
    decode_refresh_token 10 (create_access_token 10 "a@x.com" (some 100)) =
      Outcome.httpError 401 "Invalid scope for token" :=
  decode_two_failure_kinds 10
    ⟨⟨"a@x.com", 0, 100, some Scope.refresh_token⟩, "tampered"⟩
    ⟨⟨"a@x.com", 0, 5, some Scope.refresh_token⟩, SECRET_KEY⟩
    (create_access_token 10 "a@x.com" (some 100))
    (by decide) (by decide) (by decide) (by decide) (by decide) (by decide)

/-- C4: a freshly issued token decodes, before expiry, with the same
subject and the same scope it was issued with — via `decode_refresh_token`
for refresh scope and via the `jose` decode underlying `get_current_user`
for access scope — for every positive ttl. -/
theorem issue_decode_roundtrip (now : Nat) (sub : String) (ttl : Nat) (h : 0 < ttl) :
    decode_refresh_token now (create_refresh_token now sub (some ttl)) = .ok sub ∧
    (create_refresh_token now sub (some ttl)).payload.sub = sub ∧
    (create_refresh_token now sub (some ttl)).payload.scope = some Scope.refresh_token ∧
    jwtDecode (create_access_token now sub (some ttl)) SECRET_KEY now =
      .ok (create_access_token now sub (some ttl)).payload ∧
    (create_access_token now sub (some ttl)).payload.sub = sub ∧
    (create_access_token now sub (some ttl)).payload.scope = some Scope.access_token := by
  have hz : ttl ≠ 0 := Nat.pos_iff_ne_zero.mp h
  have hlt : ¬ (now + ttl < now) := by omega
  simp [decode_refresh_token, jwtDecode, create_refresh_token, create_access_token, hz, hlt]

/-- C4 witness: subject "a@x.com" with a 60-second ttl at time 0. -/
theorem issue_decode_roundtrip_witness :
    decode_refresh_token 0 (create_refresh_token 0 "a@x.com" (some 60)) =
      Outcome.ok "a@x.com" ∧
    (create_refresh_token 0 "a@x.com" (some 60)).payload.sub = "a@x.com" ∧
    (create_refresh_token 0 "a@x.com" (some 60)).payload.scope = some Scope.refresh_token ∧
    jwtDecode (create_access_token 0 "a@x.com" (some 60)) SECRET_KEY 0 =
      .ok (create_access_token 0 "a@x.com" (some 60)).payload ∧
    (create_access_token 0 "a@x.com" (some 60)).payload.sub = "a@x.com" ∧
    (create_access_token 0 "a@x.com" (some 60)).payload.scope = some Scope.access_token :=
  issue_decode_roundtrip 0 "a@x.com" 60 (by decide)

/-- C5 counterexample: a validly signed, unexpired token bearing the access
scope tag is accepted, not rejected, by the confirmation-token decode
`get_email_from_token`. -/
theorem email_decode_accepts_scoped_counterexample :
    get_email_from_token 0 (create_access_token 0 "a@x.com" (some 100)) =
      Outcome.ok "a@x.com" ∧
    (create_access_token 0 "a@x.com" (some 100)).payload.scope =
      some Scope.access_token := by
  decide

/-- C5 amended: `get_email_from_token` performs no scope check at all — any
validly signed, unexpired token is accepted and its subject returned,
whether its scope field is absent, access, or refresh. -/
theorem get_email_from_token_ignores_scope (now : Nat) (tok : Token) (p : Payload)
    (hdec : jwtDecode tok SECRET_KEY now = .ok p) :
    get_email_from_token now tok = .ok p.sub := by
  simp [get_email_from_token, hdec]

/-- C5 witness: a refresh-scoped token is accepted by the confirmation
decode. -/
theorem get_email_from_token_ignores_scope_witness :
    get_email_from_token 0 (create_refresh_token 0 "b@x.com" (some 50)) =
      Outcome.ok "b@x.com" :=
  get_email_from_token_ignores_scope 0 (create_refresh_token 0 "b@x.com" (some 50))
    (create_refresh_token 0 "b@x.com" (some 50)).payload rfl

/-- C7 counterexample: on a malformed digest the backend error escapes
`verify_password` — the call raises instead of returning false. -/
theorem verify_password_raises_counterexample :
    verify_password "pw" "nothash" = Except.error "UnknownHashError" := by
  simp [verify_password, pwd_context_verify]

/-- C7 amended: `verify_password` installs no exception handling around the
passlib context, so a digest the backend cannot identify as a bcrypt hash
makes the backend's `UnknownHashError` propagate out of the call rather
than yielding false. -/
theorem verify_password_propagates_backend_error (p h : String)
    (hm : "$2b$".data.isPrefixOf h.data = false) :
    verify_password p h = Except.error "UnknownHashError" := by
  simp [verify_password, pwd_context_verify, hm]

/-- C7 witness: a concrete unidentifiable digest. -/
theorem verify_password_propagates_backend_error_witness :
    verify_password "x" "zzz" = Except.error "UnknownHashError" :=
  verify_password_propagates_backend_error "x" "zzz" (by decide)

/-- C6 counterexample: with a valid access token, a cache miss and the user
present in the directory, a failing cache write makes
`get_current_user` fail with the propagated redis error instead of
returning the resolved identity. -/
theorem cache_write_failure_fails_call_counterexample :
    (get_current_user 0 (create_access_token 0 "a@x.com" (some 1000))
      [⟨1, "alice", "a@x.com", "$2b$pw", true, none⟩] emptyCache true).outcome =
      Outcome.pythonError "RedisError" := by
  simp [get_current_user, jwtDecode, create_access_token, rGet, emptyCache,
    get_user_by_email]

/-- C6 amended: a failure of the identity-cache write is not swallowed —
there is no exception handler around `r.set`, so the redis error escapes
the call, the resolved identity is not returned, and no cache write
completes. -/
theorem cache_write_failure_propagates (now : Nat) (tok : Token) (db : List User)
    (cache : Cache) (p : Payload) (user : User)
    (hdec : jwtDecode tok SECRET_KEY now = .ok p)
    (hscope : p.scope = some Scope.access_token)
    (hmiss : rGet cache now ("user:" ++ p.sub) = none)
    (hfind : get_user_by_email p.sub db = some user) :
    (get_current_user now tok db cache true).outcome = .pythonError "RedisError" ∧
    (get_current_user now tok db cache true).cacheWrites = 0 := by
  simp [get_current_user, hdec, hscope, hmiss, hfind]

/-- C6 witness: a concrete valid token, empty cache and one-user directory
with a failing cache write. -/
theorem cache_write_failure_propagates_witness :
    (get_current_user 5 (create_access_token 5 "b@x.com" (some 1000))
      [⟨2, "bob", "b@x.com", "$2b$pw", true, none⟩] emptyCache true).outcome =
      Outcome.pythonError "RedisError" ∧
    (get_current_user 5 (create_access_token 5 "b@x.com" (some 1000))
      [⟨2, "bob", "b@x.com", "$2b$pw", true, none⟩] emptyCache true).cacheWrites = 0 :=
  cache_write_failure_propagates 5 (create_access_token 5 "b@x.com" (some 1000))
    [⟨2, "bob", "b@x.com", "$2b$pw", true, none⟩] emptyCache
    (create_access_token 5 "b@x.com" (some 1000)).payload
    ⟨2, "bob", "b@x.com", "$2b$pw", true, none⟩
    rfl (by decide) rfl (by decide)

/-- C8: evaluation of the cache-miss path at its failing input — a valid
unexpired access token for a user the directory holds, an empty cache and
a healthy redis.  The call performs its one directory lookup and the raw
`SET`, then crashes with `TypeError` (the `await` of the synchronous
redis client's boolean result) instead of returning the resolved
identity, and `r.expire` is never reached: a later call at time 999, past
the intended 900-second TTL, still answers from the never-expiring cache
entry with zero directory lookups, even against an emptied directory. -/
theorem resolve_current_user_cache_miss_crashes :
    (get_current_user 0 (create_access_token 0 "a@x.com" (some 1000))
      [⟨1, "alice", "a@x.com", "$2b$pw", true, none⟩] emptyCache false).outcome =
      Outcome.pythonError "TypeError" ∧
    (get_current_user 0 (create_access_token 0 "a@x.com" (some 1000))
      [⟨1, "alice", "a@x.com", "$2b$pw", true, none⟩] emptyCache false).dbLookups = 1 ∧
    (get_current_user 0 (create_access_token 0 "a@x.com" (some 1000))
      [⟨1, "alice", "a@x.com", "$2b$pw", true, none⟩] emptyCache false).cacheWrites = 1 ∧
    (get_current_user 999 (create_access_token 0 "a@x.com" (some 1000)) []
      (get_current_user 0 (create_access_token 0 "a@x.com" (some 1000))
        [⟨1, "alice", "a@x.com", "$2b$pw", true, none⟩] emptyCache false).cache
      false).outcome = Outcome.ok ⟨1, "alice", "a@x.com", "$2b$pw", true, none⟩ ∧
    (get_current_user 999 (create_access_token 0 "a@x.com" (some 1000)) []
      (get_current_user 0 (create_access_token 0 "a@x.com" (some 1000))
        [⟨1, "alice", "a@x.com", "$2b$pw", true, none⟩] emptyCache false).cache
      false).dbLookups = 0 := by
  decide

end ContactsAPI
